import Mathlib

/-!
Shallow embedding of the appointment controller of the backendNode repository
(src/controllers/appointmentController.js) together with proofs about the claims
of the specification. Persistence is modelled as explicit lists of records, the
millisecond timestamps of JavaScript Date values as integers (with UTC offset
zero, so that setHours works on fixed day windows), and each handler as a pure
function from the store and the request to the new store and a response.
-/

/-- Millisecond timestamp, as carried by a JavaScript Date value. -/
abbrev Timestamp := Int

/-- Doctor record: the fields the appointment controller reads or writes. -/
structure Doctor where
  id : String
  name : String
  rating : ℚ
  totalPatients : Nat
  deriving DecidableEq

/-- Patient record: the fields the appointment controller reads. -/
structure Patient where
  id : String
  name : String
  phone : String
  deriving DecidableEq

/-- Rating subdocument stored on an appointment: score and feedback. -/
structure Rating where
  score : Nat
  feedback : String
  deriving DecidableEq

/-- Appointment record, after the data model of the specification and the fields
the controller manipulates. The status field is a plain string, as in the code. -/
structure Appointment where
  id : String
  doctorId : String
  patientId : String
  appointmentDate : Timestamp
  timeSlot : String
  symptoms : String
  consultationType : String
  status : String
  rating : Option Rating
  meetingLink : Option String
  whatsappSent : Bool
  deriving DecidableEq

/-- The document store: doctors, patients and appointments. -/
structure DB where
  doctors : List Doctor
  patients : List Patient
  appointments : List Appointment
  deriving DecidableEq

/-- Structured errors the handlers return, one per early-return branch of the
controller. -/
inductive ApiError where
  | doctorNotFound
  | patientNotFound
  | invalidDate
  | doctorSlotConflict
  | patientSlotConflict
  | appointmentNotFound
  | accessDenied
  | cannotCancel
  | cannotRate
  deriving DecidableEq

/-- HTTP status code attached to each error by the controller. -/
def ApiError.statusCode : ApiError → Nat
  | .doctorNotFound => 404
  | .patientNotFound => 404
  | .invalidDate => 400
  | .doctorSlotConflict => 400
  | .patientSlotConflict => 400
  | .appointmentNotFound => 404
  | .accessDenied => 403
  | .cannotCancel => 400
  | .cannotRate => 400

/-- Milliseconds in one day. -/
def msPerDay : Int := 86400000

/-- JavaScript new Date(d).setHours(0, 0, 0, 0): midnight of the day holding d. -/
def dayStart (t : Timestamp) : Timestamp := msPerDay * (t.fdiv msPerDay)

/-- JavaScript new Date(d).setHours(23, 59, 59, 999): the last millisecond of the
day holding d. The booking queries compare against this value with a strict
less-than. -/
def dayEnd (t : Timestamp) : Timestamp := dayStart t + (msPerDay - 1)

/-- Doctor-side slot query of bookAppointment (lines 55..63): an appointment of
the same doctor, with date in [dayStart, dayEnd) (the $lt bound is the last
millisecond itself), the same time slot, and status scheduled or ongoing. -/
def doctorSlotTaken (db : DB) (doctorId : String) (date : Timestamp)
    (timeSlot : String) : Bool :=
  db.appointments.any fun a =>
    a.doctorId == doctorId &&
    (decide (dayStart date ≤ a.appointmentDate) &&
     decide (a.appointmentDate < dayEnd date)) &&
    a.timeSlot == timeSlot &&
    (a.status == "scheduled" || a.status == "ongoing")

/-- Patient-side slot query of bookAppointment (lines 73..81): same shape as the
doctor-side query, over the patient id and with status scheduled, ongoing or
confirmed. -/
def patientSlotTaken (db : DB) (patientId : String) (date : Timestamp)
    (timeSlot : String) : Bool :=
  db.appointments.any fun a =>
    a.patientId == patientId &&
    (decide (dayStart date ≤ a.appointmentDate) &&
     decide (a.appointmentDate < dayEnd date)) &&
    a.timeSlot == timeSlot &&
    (a.status == "scheduled" || a.status == "ongoing" || a.status == "confirmed")

/-- Request body of bookAppointment after validation and destructuring. -/
structure BookRequest where
  doctorId : String
  patientId : String
  appointmentDate : Timestamp
  timeSlot : String
  symptoms : String
  consultationType : String
  deriving DecidableEq

/-- Modelled from the spec: models/Appointment.js is not under src, so the schema
default of the whatsappSent flag is taken from the spec sentence that the field
records whether the notification succeeded: it starts false and is set to true
only after a successful confirmation call. -/
def whatsappSentDefault : Bool := false

/-- The $inc update on the doctor record after a successful booking (lines
125..127). -/
def bumpTotalPatients (doctorId : String) (doctors : List Doctor) : List Doctor :=
  doctors.map fun d =>
    if d.id == doctorId then { d with totalPatients := d.totalPatients + 1 } else d

/-- Handler bookAppointment (lines 8..142). The arguments now, notifyOk and
newId model the clock, the outcome of the external sendAppointmentConfirmation
call (true when the try block of lines 110..119 runs to completion), and the
fresh document id. Errors perform no write, so the store is returned unchanged
on every early-return branch. -/
def bookAppointment (db : DB) (now : Timestamp) (notifyOk : Bool) (newId : String)
    (r : BookRequest) : DB × Except ApiError Appointment :=
  match db.doctors.find? (fun d => d.id == r.doctorId) with
  | none => (db, .error .doctorNotFound)
  | some _ =>
    match db.patients.find? (fun p => p.id == r.patientId) with
    | none => (db, .error .patientNotFound)
    | some _ =>
      if r.appointmentDate ≤ now then (db, .error .invalidDate)
      else if doctorSlotTaken db r.doctorId r.appointmentDate r.timeSlot then
        (db, .error .doctorSlotConflict)
      else if patientSlotTaken db r.patientId r.appointmentDate r.timeSlot then
        (db, .error .patientSlotConflict)
      else
        let created : Appointment :=
          { id := newId, doctorId := r.doctorId, patientId := r.patientId,
            appointmentDate := r.appointmentDate, timeSlot := r.timeSlot,
            symptoms := r.symptoms, consultationType := r.consultationType,
            status := "scheduled", rating := none, meetingLink := none,
            whatsappSent := whatsappSentDefault }
        let created := if notifyOk then { created with whatsappSent := true } else created
        ({ db with
            appointments := db.appointments ++ [created],
            doctors := bumpTotalPatients r.doctorId db.doctors },
         .ok created)

/-- Ownership guard shared by getAppointment, updateAppointment and
cancelAppointment (lines 162..165, 201..204, 245..248): the request is rejected
exactly when a patientId is supplied that differs from the appointment patientId
AND a doctorId is supplied that differs from the appointment doctorId. An absent
identifier makes its conjunct false, as JavaScript truthiness does. -/
def ownershipRejected (app : Appointment) (patientId doctorId : Option String) : Bool :=
  (match patientId with | some p => app.patientId != p | none => false) &&
  (match doctorId with | some d => app.doctorId != d | none => false)

/-- Handler getAppointment (lines 145..184). Read-only, so only the response is
returned. -/
def getAppointment (db : DB) (appointmentId : String)
    (patientId doctorId : Option String) : Except ApiError Appointment :=
  match db.appointments.find? (fun a => a.id == appointmentId) with
  | none => .error .appointmentNotFound
  | some app =>
    if ownershipRejected app patientId doctorId then .error .accessDenied
    else .ok app

/-- Request body of updateAppointment: patientId and doctorId are destructured
out as the requester identifiers (line 190), and the remaining appointment
fields may each be supplied or absent. -/
structure UpdateBody where
  patientId : Option String := none
  doctorId : Option String := none
  appointmentDate : Option Timestamp := none
  timeSlot : Option String := none
  symptoms : Option String := none
  consultationType : Option String := none
  status : Option String := none
  rating : Option Rating := none
  meetingLink : Option String := none
  whatsappSent : Option Bool := none
  deriving DecidableEq

/-- Object.assign(appointment, updateFields) of line 212: every supplied field
overwrites the stored one, every absent field is kept. The requester
identifiers are not part of updateFields, so doctorId and patientId are never
touched. -/
def applyUpdateFields (app : Appointment) (b : UpdateBody) : Appointment :=
  { app with
    appointmentDate := b.appointmentDate.getD app.appointmentDate,
    timeSlot := b.timeSlot.getD app.timeSlot,
    symptoms := b.symptoms.getD app.symptoms,
    consultationType := b.consultationType.getD app.consultationType,
    status := b.status.getD app.status,
    rating := b.rating.or app.rating,
    meetingLink := b.meetingLink.or app.meetingLink,
    whatsappSent := b.whatsappSent.getD app.whatsappSent }

/-- Handler updateAppointment (lines 187..228). -/
def updateAppointment (db : DB) (appointmentId : String) (b : UpdateBody) :
    DB × Except ApiError Appointment :=
  match db.appointments.find? (fun a => a.id == appointmentId) with
  | none => (db, .error .appointmentNotFound)
  | some app =>
    if ownershipRejected app b.patientId b.doctorId then (db, .error .accessDenied)
    else
      ({ db with
          appointments := db.appointments.map fun a =>
            if a.id == appointmentId then applyUpdateFields a b else a },
       .ok (applyUpdateFields app b))

/-- Handler cancelAppointment (lines 231..278). -/
def cancelAppointment (db : DB) (appointmentId : String)
    (patientId doctorId : Option String) : DB × Except ApiError Appointment :=
  match db.appointments.find? (fun a => a.id == appointmentId) with
  | none => (db, .error .appointmentNotFound)
  | some app =>
    if ownershipRejected app patientId doctorId then (db, .error .accessDenied)
    else if app.status == "completed" || app.status == "cancelled" then
      (db, .error .cannotCancel)
    else
      ({ db with
          appointments := db.appointments.map fun a =>
            if a.id == appointmentId then { a with status := "cancelled" } else a },
       .ok { app with status := "cancelled" })

/-- Query of lines 312..316: the completed appointments of a doctor that carry a
rating. -/
def completedRatedOf (apts : List Appointment) (doctorId : String) : List Appointment :=
  apts.filter fun a =>
    a.doctorId == doctorId && a.status == "completed" && a.rating.isSome

/-- Score read from the rating subdocument, zero when absent (the aggregation
only ever reads it on rated appointments). -/
def ratingScore (a : Appointment) : ℚ :=
  match a.rating with
  | some r => (r.score : ℚ)
  | none => 0

/-- JavaScript Math.round over exact rationals: round half toward positive
infinity. -/
def jsRound (q : ℚ) : ℤ := ⌊q + 1 / 2⌋

/-- Math.round(averageRating * 10) / 10 of line 322. -/
def roundTo1 (q : ℚ) : ℚ := ((jsRound (q * 10) : ℤ) : ℚ) / 10

/-- Handler rateAppointment (lines 281..338). The rating is written first, then
the aggregate of the doctor is recomputed over all completed rated appointments
of that doctor, including the one just rated. -/
def rateAppointment (db : DB) (appointmentId : String) (patientId : String)
    (score : Nat) (feedback : String) : DB × Except ApiError Appointment :=
  match db.appointments.find? (fun a => a.id == appointmentId) with
  | none => (db, .error .appointmentNotFound)
  | some app =>
    if app.patientId != patientId then (db, .error .accessDenied)
    else if app.status != "completed" then (db, .error .cannotRate)
    else
      let apts2 := db.appointments.map fun a =>
        if a.id == appointmentId then { a with rating := some ⟨score, feedback⟩ } else a
      let rated := completedRatedOf apts2 app.doctorId
      let average : ℚ := (rated.map ratingScore).sum / (rated.length : ℚ)
      ({ db with
          appointments := apts2,
          doctors := db.doctors.map fun d =>
            if d.id == app.doctorId then { d with rating := roundTo1 average } else d },
       .ok { app with rating := some ⟨score, feedback⟩ })

/-- Query selection of getAppointmentStats (lines 345..347): a supplied doctorId
wins, else a supplied patientId, else nothing matches (the query on an undefined
patientId matches no stored appointment). -/
def statsQuery (patientId doctorId : Option String) (a : Appointment) : Bool :=
  match doctorId with
  | some d => a.doctorId == d
  | none =>
    match patientId with
    | some p => a.patientId == p
    | none => false

/-- The $group stage of lines 349..357: one pair per distinct status value with
the count of matching appointments carrying it. -/
def statusGroups (apts : List Appointment) : List (String × Nat) :=
  ((apts.map fun a => a.status).dedup).map fun s =>
    (s, (apts.map fun a => a.status).count s)

/-- One iteration of the forEach of lines 368..371: write the count under the
status key, then add it to the running total. -/
def statsStep (m : String → Nat) (g : String × Nat) : String → Nat :=
  fun k =>
    let m1 : String → Nat := fun k2 => if k2 = g.1 then g.2 else m k2
    if k = "total" then m1 "total" + g.2 else m1 k

/-- Initial formattedStats object of lines 359..366: every key at zero. -/
def statsInit : String → Nat := fun _ => 0

/-- Handler getAppointmentStats (lines 341..385), returning the formattedStats
object as a map from key to count. -/
def getAppointmentStats (db : DB) (patientId doctorId : Option String) :
    String → Nat :=
  (statusGroups (db.appointments.filter (statsQuery patientId doctorId))).foldl
    statsStep statsInit

/-- Modelled from the spec: models/Appointment.js is not under src, and the data
model section fixes the status vocabulary of stored appointments to scheduled,
ongoing, completed, cancelled and no-show. -/
def validStatus (s : String) : Prop :=
  s ∈ ["scheduled", "ongoing", "completed", "cancelled", "no-show"]

/-- Doctor-side conflict as the claim words it: same doctor, same calendar day
with a CLOSED boundary up to and including 23:59:59.999, same time slot, status
scheduled or ongoing. Stated from the spec for comparison with doctorSlotTaken,
which uses a strict bound. -/
def specDoctorSlotConflict (db : DB) (doctorId : String) (date : Timestamp)
    (timeSlot : String) : Bool :=
  db.appointments.any fun a =>
    a.doctorId == doctorId &&
    (decide (dayStart date ≤ a.appointmentDate) &&
     decide (a.appointmentDate ≤ dayEnd date)) &&
    a.timeSlot == timeSlot &&
    (a.status == "scheduled" || a.status == "ongoing")

/-- Rounding to one decimal place with ties on the tenths digit rounded away
from zero, stated from the words of the claim. -/
def specRoundTo1 (q : ℚ) : ℚ :=
  ((if 0 ≤ q then ⌊q * 10 + 1 / 2⌋ else ⌈q * 10 - 1 / 2⌉ : ℤ) : ℚ) / 10

/-! Concrete fixtures used by witnesses and counterexamples. -/

/-- Sample doctor. -/
def drD1 : Doctor := { id := "D1", name := "Dr One", rating := 0, totalPatients := 0 }

/-- Sample patient owning apt1. -/
def patP1 : Patient := { id := "P1", name := "Pat One", phone := "111" }

/-- Second sample patient. -/
def patP2 : Patient := { id := "P2", name := "Pat Two", phone := "222" }

/-- Scheduled appointment of drD1 with patP1, one second past the epoch. -/
def apt1 : Appointment :=
  { id := "A1", doctorId := "D1", patientId := "P1", appointmentDate := 1000,
    timeSlot := "10:00-10:30", symptoms := "cough", consultationType := "video",
    status := "scheduled", rating := none, meetingLink := none, whatsappSent := false }

/-- Store holding drD1, both patients and apt1. -/
def db1 : DB := { doctors := [drD1], patients := [patP1, patP2], appointments := [apt1] }

/-- The ownership guard rejects exactly when both identifiers are supplied and
both differ from the parties of the appointment. -/
theorem ownershipRejected_iff (app : Appointment) (pid did : Option String) :
    ownershipRejected app pid did = true ↔
      ((∃ p, pid = some p ∧ p ≠ app.patientId) ∧
       (∃ d, did = some d ∧ d ≠ app.doctorId)) := by
  cases pid <;> cases did <;>
    simp [ownershipRejected, bne_iff_ne, ne_comm]

/-- Claim C1 fails on the code: this getAppointment request resolves apt1 and
supplies exactly one requester identifier, a patientId that matches neither
party of the appointment, yet the appointment is served instead of the request
being rejected with Forbidden. -/
theorem C1_counterexample :
    ("P2" : String) ≠ apt1.patientId ∧ ("P2" : String) ≠ apt1.doctorId ∧
    getAppointment db1 "A1" (some "P2") none = .ok apt1 :=
  ⟨by decide, by decide, by rfl⟩

/-- Claim C1 (amended): a getAppointment, updateAppointment or cancelAppointment
request that resolves its appointment is rejected with Forbidden (HTTP 403)
exactly when a requester patientId is supplied that differs from the appointment
patientId AND a requester doctorId is supplied that differs from the appointment
doctorId; when either identifier is absent, or any supplied identifier matches
its party, the request passes the ownership gate. -/
theorem C1_ownership_amended (db : DB) (appointmentId : String) (b : UpdateBody)
    (app : Appointment)
    (happ : db.appointments.find? (fun a => a.id == appointmentId) = some app) :
    ApiError.accessDenied.statusCode = 403 ∧
    (getAppointment db appointmentId b.patientId b.doctorId = .error .accessDenied ↔
      ((∃ p, b.patientId = some p ∧ p ≠ app.patientId) ∧
       (∃ d, b.doctorId = some d ∧ d ≠ app.doctorId))) ∧
    ((updateAppointment db appointmentId b).2 = .error .accessDenied ↔
      ((∃ p, b.patientId = some p ∧ p ≠ app.patientId) ∧
       (∃ d, b.doctorId = some d ∧ d ≠ app.doctorId))) ∧
    ((cancelAppointment db appointmentId b.patientId b.doctorId).2 = .error .accessDenied ↔
      ((∃ p, b.patientId = some p ∧ p ≠ app.patientId) ∧
       (∃ d, b.doctorId = some d ∧ d ≠ app.doctorId))) := by
  refine ⟨rfl, ?_, ?_, ?_⟩ <;>
    rw [← ownershipRejected_iff app b.patientId b.doctorId]
  · unfold getAppointment
    rw [happ]
    by_cases h : ownershipRejected app b.patientId b.doctorId = true
    · simp [h]
    · simp [h]
  · unfold updateAppointment
    rw [happ]
    by_cases h : ownershipRejected app b.patientId b.doctorId = true
    · simp [h]
    · simp [h]
  · unfold cancelAppointment
    rw [happ]
    by_cases h : ownershipRejected app b.patientId b.doctorId = true
    · simp [h]
    · cases h2 : (app.status == "completed" || app.status == "cancelled") <;>
        simp [h, h2]

/-- Witness for the amended claim C1: with both identifiers supplied and both
mismatching, the request on db1 is rejected with Forbidden. -/
theorem C1_ownership_amended_witness :
    getAppointment db1 "A1" (some "P2") (some "D9") = .error .accessDenied :=
  ((C1_ownership_amended db1 "A1"
      { patientId := some "P2", doctorId := some "D9" } apt1 (by rfl)).2.1).mpr
    ⟨⟨"P2", rfl, by decide⟩, ⟨"D9", rfl, by decide⟩⟩

/-- Update body supplying a matching patientId, a doctorId value and a status. -/
def body9 : UpdateBody :=
  { patientId := some "P1", doctorId := some "D2", status := some "ongoing" }

/-- Claim C9 fails on the code: this updateAppointment call passes the ownership
check (the supplied patientId matches), its body supplies both a status and a
doctorId, yet only the status is merged: the stored doctorId stays D1 instead of
becoming the supplied D2, because the two requester identifiers are destructured
out of the body before the merge. -/
theorem C9_counterexample :
    body9.doctorId = some "D2" ∧ ("D2" : String) ≠ apt1.doctorId ∧
    (updateAppointment db1 "A1" body9).2 = .ok { apt1 with status := "ongoing" } ∧
    ({ apt1 with status := "ongoing" } : Appointment).doctorId = "D1" :=
  ⟨rfl, by decide, by rfl, rfl⟩

/-- Claim C9 (amended): for every updateAppointment call that passes the
ownership check, every supplied field of the body other than the requester
identifiers patientId and doctorId is merged into the record unconditionally and
persisted, every absent field is left unchanged, and the patientId and doctorId
of the record are never modified, because those two body fields are consumed as
requester identifiers. -/
theorem C9_update_amended (db : DB) (appointmentId : String) (b : UpdateBody)
    (app : Appointment)
    (happ : db.appointments.find? (fun a => a.id == appointmentId) = some app)
    (hauth : ownershipRejected app b.patientId b.doctorId = false) :
    ∃ apt, (updateAppointment db appointmentId b).2 = .ok apt ∧
      apt ∈ (updateAppointment db appointmentId b).1.appointments ∧
      apt.patientId = app.patientId ∧
      apt.doctorId = app.doctorId ∧
      apt.appointmentDate = b.appointmentDate.getD app.appointmentDate ∧
      apt.timeSlot = b.timeSlot.getD app.timeSlot ∧
      apt.symptoms = b.symptoms.getD app.symptoms ∧
      apt.consultationType = b.consultationType.getD app.consultationType ∧
      apt.status = b.status.getD app.status ∧
      apt.rating = b.rating.or app.rating ∧
      apt.meetingLink = b.meetingLink.or app.meetingLink ∧
      apt.whatsappSent = b.whatsappSent.getD app.whatsappSent := by
  have hmem : app ∈ db.appointments := List.mem_of_find?_eq_some happ
  have hpred : (app.id == appointmentId) = true := by
    have h := List.find?_some happ
    simpa using h
  refine ⟨applyUpdateFields app b, ?_, ?_, rfl, rfl, rfl, rfl, rfl, rfl, rfl, rfl, rfl, rfl⟩
  · unfold updateAppointment
    rw [happ]
    simp [hauth]
  · unfold updateAppointment
    rw [happ]
    simp only [hauth, Bool.false_eq_true, if_false]
    have := List.mem_map_of_mem
      (fun a => if a.id == appointmentId then applyUpdateFields a b else a) hmem
    simpa [hpred] using this

/-- Witness for the amended claim C9 at a concrete input. -/
theorem C9_update_amended_witness :
    ∃ apt, (updateAppointment db1 "A1" body9).2 = .ok apt ∧
      apt ∈ (updateAppointment db1 "A1" body9).1.appointments ∧
      apt.patientId = apt1.patientId ∧
      apt.doctorId = apt1.doctorId ∧
      apt.appointmentDate = body9.appointmentDate.getD apt1.appointmentDate ∧
      apt.timeSlot = body9.timeSlot.getD apt1.timeSlot ∧
      apt.symptoms = body9.symptoms.getD apt1.symptoms ∧
      apt.consultationType = body9.consultationType.getD apt1.consultationType ∧
      apt.status = body9.status.getD apt1.status ∧
      apt.rating = body9.rating.or apt1.rating ∧
      apt.meetingLink = body9.meetingLink.or apt1.meetingLink ∧
      apt.whatsappSent = body9.whatsappSent.getD apt1.whatsappSent :=
  C9_update_amended db1 "A1" body9 apt1 (by rfl) (by rfl)

/-- Claim C5: a cancelAppointment call that passes the ownership check fails
with the terminal-state error and leaves the store untouched when the status is
completed or cancelled, and succeeds, setting the status to cancelled, when the
status is scheduled or ongoing. -/
theorem C5_cancel_terminal (db : DB) (appointmentId : String)
    (pid did : Option String) (app : Appointment)
    (happ : db.appointments.find? (fun a => a.id == appointmentId) = some app)
    (hauth : ownershipRejected app pid did = false) :
    ((app.status = "completed" ∨ app.status = "cancelled") →
      cancelAppointment db appointmentId pid did = (db, .error .cannotCancel)) ∧
    ((app.status = "scheduled" ∨ app.status = "ongoing") →
      ∃ db2, cancelAppointment db appointmentId pid did =
          (db2, .ok { app with status := "cancelled" }) ∧
        { app with status := "cancelled" } ∈ db2.appointments) := by
  have hmem : app ∈ db.appointments := List.mem_of_find?_eq_some happ
  have hpred : (app.id == appointmentId) = true := by
    have h := List.find?_some happ
    simpa using h
  constructor
  · intro h
    have hterm : (app.status == "completed" || app.status == "cancelled") = true := by
      rcases h with h | h <;> simp [h]
    unfold cancelAppointment
    rw [happ]
    simp [hauth, hterm]
  · intro h
    have hterm : (app.status == "completed" || app.status == "cancelled") = false := by
      rcases h with h | h <;> simp [h]
    unfold cancelAppointment
    rw [happ]
    simp only [hauth, Bool.false_eq_true, if_false, hterm]
    refine ⟨_, rfl, ?_⟩
    have := List.mem_map_of_mem
      (fun a => if a.id == appointmentId then { a with status := "cancelled" } else a) hmem
    simpa [hpred] using this

/-- Witness for claim C5: cancelling the scheduled apt1 as its patient succeeds
and stores it as cancelled. -/
theorem C5_cancel_terminal_witness :
    ∃ db2, cancelAppointment db1 "A1" (some "P1") none =
        (db2, .ok { apt1 with status := "cancelled" }) ∧
      { apt1 with status := "cancelled" } ∈ db2.appointments :=
  (C5_cancel_terminal db1 "A1" (some "P1") none apt1 (by rfl) (by rfl)).2 (Or.inl rfl)

/-- Appointment of drD1 with patP1 in status no-show. -/
def aptNS : Appointment := { apt1 with id := "A3", status := "no-show" }

/-- Store holding the no-show appointment. -/
def dbNS : DB := { doctors := [drD1], patients := [patP1], appointments := [aptNS] }

/-- Claim C10: an appointment in status no-show passes the terminal-state test
of cancelAppointment, which only checks completed and cancelled, so a request
with a matching identifier cancels it and stores it with status cancelled. -/
theorem C10_noShow_cancellable (db : DB) (appointmentId : String)
    (pid did : Option String) (app : Appointment)
    (happ : db.appointments.find? (fun a => a.id == appointmentId) = some app)
    (hauth : ownershipRejected app pid did = false)
    (hst : app.status = "no-show") :
    ∃ db2, cancelAppointment db appointmentId pid did =
        (db2, .ok { app with status := "cancelled" }) ∧
      { app with status := "cancelled" } ∈ db2.appointments := by
  have hmem : app ∈ db.appointments := List.mem_of_find?_eq_some happ
  have hpred : (app.id == appointmentId) = true := by
    have h := List.find?_some happ
    simpa using h
  have hterm : (app.status == "completed" || app.status == "cancelled") = false := by
    simp [hst]
  unfold cancelAppointment
  rw [happ]
  simp only [hauth, Bool.false_eq_true, if_false, hterm]
  refine ⟨_, rfl, ?_⟩
  have h := List.mem_map_of_mem
    (fun a => if a.id == appointmentId then { a with status := "cancelled" } else a) hmem
  simpa [hpred] using h

/-- Witness for claim C10: cancelling the no-show aptNS as its patient succeeds
and stores it as cancelled. -/
theorem C10_noShow_cancellable_witness :
    ∃ db2, cancelAppointment dbNS "A3" (some "P1") none =
        (db2, .ok { aptNS with status := "cancelled" }) ∧
      { aptNS with status := "cancelled" } ∈ db2.appointments :=
  C10_noShow_cancellable dbNS "A3" (some "P1") none aptNS (by rfl) (by rfl) (by rfl)

/-- Claim C4: when the doctor and the patient both resolve and the parsed
appointment date is not strictly after the clock, booking fails with the
InvalidDate error and the store is unchanged, so no appointment is created. -/
theorem C4_invalidDate (db : DB) (now : Timestamp) (notifyOk : Bool) (newId : String)
    (r : BookRequest)
    (hdoc : (db.doctors.find? fun d => d.id == r.doctorId).isSome)
    (hpat : (db.patients.find? fun p => p.id == r.patientId).isSome)
    (hle : r.appointmentDate ≤ now) :
    bookAppointment db now notifyOk newId r = (db, .error .invalidDate) := by
  obtain ⟨doc, hdoc⟩ := Option.isSome_iff_exists.mp hdoc
  obtain ⟨pat, hpat⟩ := Option.isSome_iff_exists.mp hpat
  unfold bookAppointment
  rw [hdoc, hpat]
  simp [hle]

/-- Booking request dated in the past relative to the witness clock. -/
def reqPast : BookRequest :=
  { doctorId := "D1", patientId := "P1", appointmentDate := 1000,
    timeSlot := "11:00-11:30", symptoms := "cold", consultationType := "video" }

/-- Witness for claim C4: booking reqPast against db1 with the clock at 50000
fails with InvalidDate and leaves the store as it was. -/
theorem C4_invalidDate_witness :
    bookAppointment db1 50000 true "A9" reqPast = (db1, .error .invalidDate) :=
  C4_invalidDate db1 50000 true "A9" reqPast (by rfl) (by rfl) (by decide)

/-- Claim C7: bookAppointment evaluates doctor existence, patient existence,
date-in-future, doctor-slot conflict and patient-slot conflict in this fixed
order and reports the error of the first failing check; in particular, when both
slot conflicts exist, the doctor-slot error is the one returned (the fourth
conjunct does not look at the patient-side query at all). -/
theorem C7_check_order (db : DB) (now : Timestamp) (notifyOk : Bool) (newId : String)
    (r : BookRequest) :
    ((db.doctors.find? fun d => d.id == r.doctorId) = none →
      (bookAppointment db now notifyOk newId r).2 = .error .doctorNotFound) ∧
    ((db.doctors.find? fun d => d.id == r.doctorId).isSome →
      (db.patients.find? fun p => p.id == r.patientId) = none →
      (bookAppointment db now notifyOk newId r).2 = .error .patientNotFound) ∧
    ((db.doctors.find? fun d => d.id == r.doctorId).isSome →
      (db.patients.find? fun p => p.id == r.patientId).isSome →
      r.appointmentDate ≤ now →
      (bookAppointment db now notifyOk newId r).2 = .error .invalidDate) ∧
    ((db.doctors.find? fun d => d.id == r.doctorId).isSome →
      (db.patients.find? fun p => p.id == r.patientId).isSome →
      now < r.appointmentDate →
      doctorSlotTaken db r.doctorId r.appointmentDate r.timeSlot = true →
      (bookAppointment db now notifyOk newId r).2 = .error .doctorSlotConflict) ∧
    ((db.doctors.find? fun d => d.id == r.doctorId).isSome →
      (db.patients.find? fun p => p.id == r.patientId).isSome →
      now < r.appointmentDate →
      doctorSlotTaken db r.doctorId r.appointmentDate r.timeSlot = false →
      patientSlotTaken db r.patientId r.appointmentDate r.timeSlot = true →
      (bookAppointment db now notifyOk newId r).2 = .error .patientSlotConflict) := by
  refine ⟨?_, ?_, ?_, ?_, ?_⟩
  · intro hdoc
    unfold bookAppointment
    rw [hdoc]
  · intro hdoc hpat
    obtain ⟨doc, hdoc⟩ := Option.isSome_iff_exists.mp hdoc
    unfold bookAppointment
    rw [hdoc, hpat]
  · intro hdoc hpat hle
    obtain ⟨doc, hdoc⟩ := Option.isSome_iff_exists.mp hdoc
    obtain ⟨pat, hpat⟩ := Option.isSome_iff_exists.mp hpat
    unfold bookAppointment
    rw [hdoc, hpat]
    simp [hle]
  · intro hdoc hpat hfut hd
    obtain ⟨doc, hdoc⟩ := Option.isSome_iff_exists.mp hdoc
    obtain ⟨pat, hpat⟩ := Option.isSome_iff_exists.mp hpat
    unfold bookAppointment
    rw [hdoc, hpat]
    simp [not_le.mpr hfut, hd]
  · intro hdoc hpat hfut hd hp
    obtain ⟨doc, hdoc⟩ := Option.isSome_iff_exists.mp hdoc
    obtain ⟨pat, hpat⟩ := Option.isSome_iff_exists.mp hpat
    unfold bookAppointment
    rw [hdoc, hpat]
    simp [not_le.mpr hfut, hd, hp]

/-- Booking request hitting the slot of apt1 for both the doctor and the
patient. -/
def reqBoth : BookRequest :=
  { doctorId := "D1", patientId := "P1", appointmentDate := 2000,
    timeSlot := "10:00-10:30", symptoms := "flu", consultationType := "video" }

/-- Witness for claim C7: reqBoth conflicts on the doctor side and on the
patient side, and the doctor-slot error is the one reported. -/
theorem C7_check_order_witness :
    (bookAppointment db1 500 true "A9" reqBoth).2 = .error .doctorSlotConflict :=
  (C7_check_order db1 500 true "A9" reqBoth).2.2.2.1 (by rfl) (by rfl)
    (by decide) (by decide)

/-- Claim C6: a booking that passes every check succeeds for both outcomes of
the confirmation notification; the created appointment is persisted in either
case, its whatsappSent flag records exactly whether the notification succeeded,
and the patient counter of the booked doctor is incremented by one in either
case while every other doctor is untouched. -/
theorem C6_notification (db : DB) (now : Timestamp) (newId : String) (r : BookRequest)
    (hdoc : (db.doctors.find? fun d => d.id == r.doctorId).isSome)
    (hpat : (db.patients.find? fun p => p.id == r.patientId).isSome)
    (hfut : now < r.appointmentDate)
    (hdc : doctorSlotTaken db r.doctorId r.appointmentDate r.timeSlot = false)
    (hpc : patientSlotTaken db r.patientId r.appointmentDate r.timeSlot = false) :
    ∀ notifyOk : Bool, ∃ apt,
      (bookAppointment db now notifyOk newId r).2 = .ok apt ∧
      apt.whatsappSent = notifyOk ∧
      apt ∈ (bookAppointment db now notifyOk newId r).1.appointments ∧
      (bookAppointment db now notifyOk newId r).1.doctors =
        db.doctors.map fun d =>
          if d.id = r.doctorId then { d with totalPatients := d.totalPatients + 1 }
          else d := by
  obtain ⟨doc, hdoc⟩ := Option.isSome_iff_exists.mp hdoc
  obtain ⟨pat, hpat⟩ := Option.isSome_iff_exists.mp hpat
  have hnle : ¬ r.appointmentDate ≤ now := not_le.mpr hfut
  intro notifyOk
  unfold bookAppointment
  rw [hdoc, hpat]
  cases notifyOk <;>
    simp [hnle, hdc, hpc, bumpTotalPatients, whatsappSentDefault, beq_iff_eq]

/-- Booking request against db1 in a free slot. -/
def reqFree : BookRequest :=
  { doctorId := "D1", patientId := "P2", appointmentDate := 2000,
    timeSlot := "12:00-12:30", symptoms := "ache", consultationType := "video" }

/-- Witness for claim C6 with a failing notification: the booking still
succeeds, the stored flag stays false, and the doctor counter is bumped. -/
theorem C6_notification_witness :
    ∃ apt,
      (bookAppointment db1 500 false "A9" reqFree).2 = .ok apt ∧
      apt.whatsappSent = false ∧
      apt ∈ (bookAppointment db1 500 false "A9" reqFree).1.appointments ∧
      (bookAppointment db1 500 false "A9" reqFree).1.doctors =
        db1.doctors.map fun d =>
          if d.id = reqFree.doctorId then { d with totalPatients := d.totalPatients + 1 }
          else d :=
  C6_notification db1 500 "A9" reqFree (by rfl) (by rfl) (by decide) (by decide)
    (by decide) false

/-- The doctor-side query succeeds exactly when a stored appointment of the same
doctor sits in the half-open day window with the same slot and a status of
scheduled or ongoing. -/
theorem doctorSlotTaken_iff (db : DB) (doctorId : String) (date : Timestamp)
    (timeSlot : String) :
    doctorSlotTaken db doctorId date timeSlot = true ↔
      ∃ a ∈ db.appointments, a.doctorId = doctorId ∧
        dayStart date ≤ a.appointmentDate ∧ a.appointmentDate < dayEnd date ∧
        a.timeSlot = timeSlot ∧ (a.status = "scheduled" ∨ a.status = "ongoing") := by
  simp [doctorSlotTaken, List.any_eq_true, and_assoc]

/-- The patient-side query succeeds exactly when a stored appointment of the
same patient sits in the half-open day window with the same slot and a status of
scheduled, ongoing or confirmed. -/
theorem patientSlotTaken_iff (db : DB) (patientId : String) (date : Timestamp)
    (timeSlot : String) :
    patientSlotTaken db patientId date timeSlot = true ↔
      ∃ a ∈ db.appointments, a.patientId = patientId ∧
        dayStart date ≤ a.appointmentDate ∧ a.appointmentDate < dayEnd date ∧
        a.timeSlot = timeSlot ∧
        (a.status = "scheduled" ∨ a.status = "ongoing" ∨ a.status = "confirmed") := by
  simp [patientSlotTaken, List.any_eq_true, and_assoc, or_assoc]

/-- Appointment of drD1 with patP1 stored at the very last millisecond of day
zero, 23:59:59.999 local time. -/
def aptLast : Appointment := { apt1 with id := "A4", appointmentDate := 86399999 }

/-- Store holding only aptLast. -/
def dbLast : DB :=
  { doctors := [drD1], patients := [patP1, patP2], appointments := [aptLast] }

/-- Booking request of another patient for noon of the same day, same doctor and
same slot as aptLast. -/
def reqNoon : BookRequest :=
  { doctorId := "D1", patientId := "P2", appointmentDate := 43200000,
    timeSlot := "10:00-10:30", symptoms := "fever", consultationType := "video" }

/-- Claim C3 fails on the code: the doctor and patient of reqNoon exist, the
date is in the future, and under the CLOSED day boundary of the claim a
doctor-side conflict exists (aptLast sits at 23:59:59.999, inside the claimed
window, scheduled, same slot), yet the code books the slot, because its query
uses a strict bound that excludes the last millisecond of the day. -/
theorem C3_counterexample :
    (dbLast.doctors.find? fun d => d.id == reqNoon.doctorId).isSome ∧
    (dbLast.patients.find? fun p => p.id == reqNoon.patientId).isSome ∧
    (1000 : Int) < reqNoon.appointmentDate ∧
    specDoctorSlotConflict dbLast reqNoon.doctorId reqNoon.appointmentDate
      reqNoon.timeSlot = true ∧
    (bookAppointment dbLast 1000 true "A9" reqNoon).2 =
      .ok { id := "A9", doctorId := "D1", patientId := "P2",
            appointmentDate := 43200000, timeSlot := "10:00-10:30",
            symptoms := "fever", consultationType := "video",
            status := "scheduled", rating := none, meetingLink := none,
            whatsappSent := true } :=
  ⟨by rfl, by rfl, by decide, by decide, by rfl⟩

/-- Claim C3 (amended): with the doctor and the patient existing and the date in
the future, the booking is rejected with a slot-conflict error exactly when
either an appointment of the same doctor exists on the same calendar day, the
day boundary being the HALF-OPEN window from 00:00:00.000 inclusive to
23:59:59.999 exclusive, with the same timeSlot and status scheduled or ongoing,
or an appointment of the same patient exists in that window with the same
timeSlot and status scheduled, ongoing or confirmed; when neither conflict
exists the appointment is created with status scheduled. -/
theorem C3_slotConflict_amended (db : DB) (now : Timestamp) (notifyOk : Bool)
    (newId : String) (r : BookRequest)
    (hdoc : (db.doctors.find? fun d => d.id == r.doctorId).isSome)
    (hpat : (db.patients.find? fun p => p.id == r.patientId).isSome)
    (hfut : now < r.appointmentDate) :
    (((bookAppointment db now notifyOk newId r).2 = .error .doctorSlotConflict ∨
      (bookAppointment db now notifyOk newId r).2 = .error .patientSlotConflict) ↔
      ((∃ a ∈ db.appointments, a.doctorId = r.doctorId ∧
          dayStart r.appointmentDate ≤ a.appointmentDate ∧
          a.appointmentDate < dayEnd r.appointmentDate ∧
          a.timeSlot = r.timeSlot ∧
          (a.status = "scheduled" ∨ a.status = "ongoing")) ∨
       (∃ a ∈ db.appointments, a.patientId = r.patientId ∧
          dayStart r.appointmentDate ≤ a.appointmentDate ∧
          a.appointmentDate < dayEnd r.appointmentDate ∧
          a.timeSlot = r.timeSlot ∧
          (a.status = "scheduled" ∨ a.status = "ongoing" ∨
           a.status = "confirmed")))) ∧
    (doctorSlotTaken db r.doctorId r.appointmentDate r.timeSlot = false →
      patientSlotTaken db r.patientId r.appointmentDate r.timeSlot = false →
      ∃ apt, (bookAppointment db now notifyOk newId r).2 = .ok apt ∧
        apt.status = "scheduled" ∧
        apt ∈ (bookAppointment db now notifyOk newId r).1.appointments) := by
  obtain ⟨doc, hdoc⟩ := Option.isSome_iff_exists.mp hdoc
  obtain ⟨pat, hpat⟩ := Option.isSome_iff_exists.mp hpat
  have hnle : ¬ r.appointmentDate ≤ now := not_le.mpr hfut
  constructor
  · rw [← doctorSlotTaken_iff, ← patientSlotTaken_iff]
    by_cases hd : doctorSlotTaken db r.doctorId r.appointmentDate r.timeSlot = true
    · unfold bookAppointment
      rw [hdoc, hpat]
      simp [hnle, hd]
    · have hd' : doctorSlotTaken db r.doctorId r.appointmentDate r.timeSlot = false :=
        Bool.not_eq_true _ ▸ eq_false_of_ne_true hd
      by_cases hp : patientSlotTaken db r.patientId r.appointmentDate r.timeSlot = true
      · unfold bookAppointment
        rw [hdoc, hpat]
        simp [hnle, hd', hp]
      · have hp' : patientSlotTaken db r.patientId r.appointmentDate r.timeSlot = false :=
          Bool.not_eq_true _ ▸ eq_false_of_ne_true hp
        unfold bookAppointment
        rw [hdoc, hpat]
        cases notifyOk <;> simp [hnle, hd', hp']
  · intro hd hp
    unfold bookAppointment
    rw [hdoc, hpat]
    cases notifyOk <;> simp [hnle, hd, hp]

/-- Witness for the amended claim C3: reqBoth hits the slot of apt1 inside the
half-open window, so the booking is rejected with a slot-conflict error. -/
theorem C3_slotConflict_amended_witness :
    (bookAppointment db1 600 true "B1" reqBoth).2 = .error .doctorSlotConflict ∨
    (bookAppointment db1 600 true "B1" reqBoth).2 = .error .patientSlotConflict :=
  ((C3_slotConflict_amended db1 600 true "B1" reqBoth (by rfl) (by rfl)
      (by decide)).1).mpr
    (Or.inl ⟨apt1, by decide, by decide, by decide, by decide, by decide,
      Or.inl (by decide)⟩)

/-- Scores are natural numbers, so the stored score of any appointment is
nonnegative. -/
theorem ratingScore_nonneg (a : Appointment) : 0 ≤ ratingScore a := by
  unfold ratingScore
  cases a.rating <;> simp

/-- The mean score over any list of appointments is nonnegative. -/
theorem avg_nonneg (l : List Appointment) :
    0 ≤ (l.map ratingScore).sum / (l.length : ℚ) := by
  refine div_nonneg (List.sum_nonneg ?_) (by positivity)
  intro x hx
  obtain ⟨a, _, rfl⟩ := List.mem_map.mp hx
  exact ratingScore_nonneg a

/-- On nonnegative values, Math.round (round half up) agrees with rounding half
away from zero, so the rounding of line 322 matches the one the spec words. -/
theorem roundTo1_eq_spec (q : ℚ) (h : 0 ≤ q) : roundTo1 q = specRoundTo1 q := by
  simp [roundTo1, specRoundTo1, jsRound, h]

/-- Claim C2: when the appointment exists, the requester is the booking patient
and the status is completed, rateAppointment stores the rating {score, feedback}
on the appointment and sets the rating of the doctor to the mean score of all
completed rated appointments of that doctor (the one just rated included),
rounded to one decimal place with ties on the tenths digit rounded away from
zero. -/
theorem C2_rating_aggregate (db : DB) (appointmentId patientId : String)
    (score : Nat) (feedback : String) (app : Appointment)
    (happ : db.appointments.find? (fun a => a.id == appointmentId) = some app)
    (hown : app.patientId = patientId)
    (hst : app.status = "completed") :
    ∃ db2, rateAppointment db appointmentId patientId score feedback =
        (db2, .ok { app with rating := some ⟨score, feedback⟩ }) ∧
      (∀ a ∈ db2.appointments, a.id = appointmentId →
        a.rating = some ⟨score, feedback⟩) ∧
      (∀ d ∈ db2.doctors, d.id = app.doctorId →
        d.rating = specRoundTo1
          (((completedRatedOf db2.appointments app.doctorId).map ratingScore).sum /
           ((completedRatedOf db2.appointments app.doctorId).length : ℚ))) := by
  have hb1 : (app.patientId != patientId) = false := by simp [hown]
  have hb2 : (app.status != "completed") = false := by simp [hst]
  unfold rateAppointment
  rw [happ]
  simp only [hb1, hb2, Bool.false_eq_true, if_false]
  refine ⟨_, rfl, ?_, ?_⟩
  · intro a ha hid
    obtain ⟨a0, ha0, rfl⟩ := List.mem_map.mp ha
    by_cases h : a0.id = appointmentId
    · simp [h]
    · rw [if_neg (by simp [h])] at hid ⊢
      exact absurd hid h
  · intro d hd hid
    obtain ⟨d0, hd0, rfl⟩ := List.mem_map.mp hd
    by_cases h : d0.id = app.doctorId
    · simp only [h, beq_self_eq_true, if_true]
      exact roundTo1_eq_spec _ (avg_nonneg _)
    · rw [if_neg (by simp [h])] at hid ⊢
      exact absurd hid h

/-- Completed appointment of drD1 with patP1, not yet rated. -/
def aptDone : Appointment := { apt1 with id := "A2", status := "completed" }

/-- Store holding the completed appointment. -/
def dbDone : DB := { doctors := [drD1], patients := [patP1], appointments := [aptDone] }

/-- Witness for claim C2: the booking patient rates the completed aptDone. -/
theorem C2_rating_aggregate_witness :
    ∃ db2, rateAppointment dbDone "A2" "P1" 4 "good" =
        (db2, .ok { aptDone with rating := some ⟨4, "good"⟩ }) ∧
      (∀ a ∈ db2.appointments, a.id = "A2" → a.rating = some ⟨4, "good"⟩) ∧
      (∀ d ∈ db2.doctors, d.id = aptDone.doctorId →
        d.rating = specRoundTo1
          (((completedRatedOf db2.appointments aptDone.doctorId).map ratingScore).sum /
           ((completedRatedOf db2.appointments aptDone.doctorId).length : ℚ))) :=
  C2_rating_aggregate dbDone "A2" "P1" 4 "good" aptDone (by rfl) rfl rfl

/-- Per-status count over the mapped statuses equals the length of the filtered
appointment list. -/
theorem count_status_eq (l : List Appointment) (s : String) :
    (l.map fun a => a.status).count s = (l.filter fun a => a.status == s).length := by
  rw [List.count, List.countP_map, List.countP_eq_length_filter]
  rfl

/-- One forEach step on a group keyed by a status other than total adds the
count of the group to the running total. -/
theorem statsStep_total (m : String → Nat) (g : String × Nat) (hg : g.1 ≠ "total") :
    statsStep m g "total" = m "total" + g.2 := by
  simp [statsStep, Ne.symm hg]

/-- One forEach step seen from any key other than total: the key of the group
receives the count, every other key is untouched. -/
theorem statsStep_other (m : String → Nat) (g : String × Nat) (k : String)
    (hk : k ≠ "total") : statsStep m g k = if k = g.1 then g.2 else m k := by
  simp [statsStep, hk]

/-- Folding the whole group list accumulates every count into the total key,
provided no group is keyed total. -/
theorem foldl_statsStep_total (L : List (String × Nat))
    (h : ∀ g ∈ L, g.1 ≠ "total") :
    ∀ m : String → Nat,
      (L.foldl statsStep m) "total" = m "total" + (L.map Prod.snd).sum := by
  induction L with
  | nil => intro m; simp
  | cons g L ih =>
    intro m
    simp only [List.foldl_cons, List.map_cons, List.sum_cons]
    rw [ih (fun x hx => h x (List.mem_cons_of_mem g hx)) (statsStep m g),
        statsStep_total m g (h g (List.mem_cons_self g L))]
    omega

/-- A key other than total that keys no group keeps its initial value. -/
theorem foldl_statsStep_notMem (L : List (String × Nat)) (k : String)
    (hk : k ≠ "total") (hmem : k ∉ L.map Prod.fst) :
    ∀ m : String → Nat, (L.foldl statsStep m) k = m k := by
  induction L with
  | nil => intro m; rfl
  | cons g L ih =>
    intro m
    simp only [List.map_cons, List.mem_cons, not_or] at hmem
    simp only [List.foldl_cons]
    rw [ih hmem.2 (statsStep m g), statsStep_other m g k hk, if_neg hmem.1]

/-- A group keyed by a status other than total ends at exactly its count when
the group keys are distinct. -/
theorem foldl_statsStep_mem (L : List (String × Nat)) (g0 : String × Nat)
    (hk : g0.1 ≠ "total") (hn : (L.map Prod.fst).Nodup) (hmem : g0 ∈ L) :
    ∀ m : String → Nat, (L.foldl statsStep m) g0.1 = g0.2 := by
  induction L with
  | nil => cases hmem
  | cons g L ih =>
    intro m
    simp only [List.map_cons, List.nodup_cons] at hn
    simp only [List.foldl_cons]
    rcases List.mem_cons.mp hmem with h0 | h0
    · subst h0
      rw [foldl_statsStep_notMem L g0.1 hk hn.1 (statsStep m g0),
          statsStep_other m g0 g0.1 hk, if_pos rfl]
    · exact ih hn.2 h0 (statsStep m g)

/-- The group keys are exactly the distinct statuses of the matching
appointments. -/
theorem statusGroups_keys (apts : List Appointment) :
    (statusGroups apts).map Prod.fst = (apts.map fun a => a.status).dedup := by
  simp only [statusGroups, List.map_map]
  exact List.map_id _

/-- Claim C8: under the schema status vocabulary, the stats object maps every
status occurring among the matching appointments to its count, maps every
vocabulary status not occurring to zero, and maps total both to the sum of the
per-status counts and to the number of matching appointments. -/
theorem C8_stats (db : DB) (pid did : Option String) (M : List Appointment)
    (hM : M = db.appointments.filter (statsQuery pid did))
    (hvocab : ∀ a ∈ M, validStatus a.status) :
    (∀ s ∈ M.map fun a => a.status,
      getAppointmentStats db pid did s = (M.filter fun a => a.status == s).length) ∧
    (∀ s ∈ (["scheduled", "ongoing", "completed", "cancelled", "no-show"] : List String),
      s ∉ M.map (fun a => a.status) → getAppointmentStats db pid did s = 0) ∧
    getAppointmentStats db pid did "total" =
      ((M.map fun a => a.status).dedup.map fun s =>
        (M.filter fun a => a.status == s).length).sum ∧
    getAppointmentStats db pid did "total" = M.length := by
  subst hM
  have hs_ne : ∀ s ∈ (db.appointments.filter (statsQuery pid did)).map
      (fun a => a.status), s ≠ "total" := by
    intro s hs
    obtain ⟨a, ha, rfl⟩ := List.mem_map.mp hs
    have hv := hvocab a ha
    simp only [validStatus, List.mem_cons, List.not_mem_nil, or_false] at hv
    rcases hv with h | h | h | h | h <;> (rw [h]; decide)
  have hkeys := statusGroups_keys (db.appointments.filter (statsQuery pid did))
  have hnod : ((statusGroups (db.appointments.filter (statsQuery pid did))).map
      Prod.fst).Nodup := by
    rw [hkeys]
    exact List.nodup_dedup _
  have htot : ∀ g ∈ statusGroups (db.appointments.filter (statsQuery pid did)),
      g.1 ≠ "total" := by
    intro g hg
    simp only [statusGroups] at hg
    obtain ⟨s, hsd, rfl⟩ := List.mem_map.mp hg
    exact hs_ne s (List.mem_dedup.mp hsd)
  refine ⟨?_, ?_, ?_, ?_⟩
  · intro s hs
    have hsd := List.mem_dedup.mpr hs
    have hg : (s, ((db.appointments.filter (statsQuery pid did)).map
        fun a => a.status).count s) ∈
        statusGroups (db.appointments.filter (statsQuery pid did)) := by
      simp only [statusGroups]
      exact List.mem_map_of_mem _ hsd
    have hres := foldl_statsStep_mem _ _ (hs_ne s hs) hnod hg statsInit
    unfold getAppointmentStats
    rw [← count_status_eq]
    exact hres
  · intro s hs hnot
    have hk : s ≠ "total" := by
      simp only [List.mem_cons, List.not_mem_nil, or_false] at hs
      rcases hs with h | h | h | h | h <;> (rw [h]; decide)
    have hmem : s ∉ (statusGroups (db.appointments.filter (statsQuery pid did))).map
        Prod.fst := by
      rw [hkeys]
      exact fun hc => hnot (List.mem_dedup.mp hc)
    unfold getAppointmentStats
    exact foldl_statsStep_notMem _ s hk hmem statsInit
  · unfold getAppointmentStats
    rw [foldl_statsStep_total _ htot statsInit]
    have hsnd : (statusGroups (db.appointments.filter (statsQuery pid did))).map
        Prod.snd =
        ((db.appointments.filter (statsQuery pid did)).map fun a => a.status).dedup.map
          (fun s => ((db.appointments.filter (statsQuery pid did)).filter
            fun a => a.status == s).length) := by
      simp only [statusGroups, List.map_map]
      exact List.map_congr_left (fun s _ => count_status_eq _ s)
    rw [hsnd]
    simp [statsInit]
  · unfold getAppointmentStats
    rw [foldl_statsStep_total _ htot statsInit]
    have hsum : ((statusGroups (db.appointments.filter (statsQuery pid did))).map
        Prod.snd).sum =
        ((db.appointments.filter (statsQuery pid did)).map fun a => a.status).length := by
      simp only [statusGroups, List.map_map]
      exact List.sum_map_count_dedup_eq_length _
    rw [hsum, List.length_map]
    simp [statsInit]

/-- The status vocabulary is decidable, so concrete stores can be checked. -/
instance validStatus_dec : DecidablePred validStatus := fun s =>
  inferInstanceAs (Decidable (s ∈ ["scheduled", "ongoing", "completed", "cancelled", "no-show"]))

/-- Witness for claim C8 on db1 queried by doctor: the total equals the number
of matching appointments. -/
theorem C8_stats_witness :
    getAppointmentStats db1 none (some "D1") "total" =
      (db1.appointments.filter (statsQuery none (some "D1"))).length :=
  (C8_stats db1 none (some "D1") (db1.appointments.filter (statsQuery none (some "D1")))
    rfl (by decide)).2.2.2
